import Mathlib

/-!
Verification development for the CurltoScrapeData repository: a browser tool
that sends a cURL command to a hosted generative model twice (analyze, then
generate) and drives a small UI status machine around the two calls.

The repository contains two variants of the screen and of the service layer:
* basic variant: `src/unnamed/part_001` (App) with `src/services/geminiService.ts`;
* extended variant: `src/unnamed/part_000` (App) with `src/unnamed/part_002`
  (service with volatile-input detection).

The controller (React `useState` fields mutated by the handlers) is embedded as
a record `AppState` together with pure transition functions, one per handler in
the source.  The two outbound AI calls are asynchronous: each handler first
performs its synchronous state writes and then settles with either a fulfilled
value or a rejection.  The settled outcome is passed to the embedded handler as
an explicit `Except` argument, so a theorem quantifying over that argument
covers every way the external call can settle.
-/

namespace Curl2Py

/-- `ConversionResponse` from `src/types.ts`: the three string fields returned
by the generate call. -/
structure ConversionResponse where
  pythonCode : String
  explanation : String
  mockResponse : String
deriving DecidableEq, Repr

/-- `AppStatus` from `src/types.ts`. -/
inductive AppStatus where
  | IDLE
  | ANALYZING
  | AWAITING_SELECTION
  | GENERATING
  | SUCCESS
  | ERROR
deriving DecidableEq, Repr

/-- A JavaScript error value as the catch blocks see it (`err: any`); only its
`message` property is read, which may be absent (`none`) or any string. -/
structure JsError where
  message : Option String
deriving DecidableEq, Repr

/-- Model of the JavaScript idiom `err.message || fallback` used in both catch
blocks: the message when it is a truthy string (present and non-empty),
otherwise the fallback.  (In JS, `undefined` and `""` are both falsy.) -/
def jsMessageOr (e : JsError) (fallback : String) : String :=
  match e.message with
  | some m => if m = "" then fallback else m
  | none => fallback

/-- Model of ECMAScript `String.prototype.trim` whitespace: WhiteSpace and
LineTerminator code points (TAB, LF, VT, FF, CR, SP, NBSP, Ogham space, the
Unicode space separators, LS, PS, NNBSP, MMSP, ideographic space, ZWNBSP). -/
def isJsWhitespace (c : Char) : Bool :=
  c.toNat == 9 || c.toNat == 10 || c.toNat == 11 || c.toNat == 12 ||
  c.toNat == 13 || c.toNat == 32 || c.toNat == 160 || c.toNat == 0x1680 ||
  (0x2000 ≤ c.toNat && c.toNat ≤ 0x200a) || c.toNat == 0x2028 ||
  c.toNat == 0x2029 || c.toNat == 0x202f || c.toNat == 0x205f ||
  c.toNat == 0x3000 || c.toNat == 0xfeff

/-- Model of `s.trim()`: drop JS whitespace from both ends. -/
def jsTrim (s : String) : String :=
  String.mk (((s.data.dropWhile isJsWhitespace).reverse.dropWhile
    isJsWhitespace).reverse)

/-- The controller state of the basic-variant `App` (`src/unnamed/part_001`,
lines 6-12): the seven `useState` fields.  The JS `Set` holding the selection
is embedded as a `Finset`, since membership is its only observed semantics. -/
structure AppState where
  curlInput : String
  status : AppStatus
  availableFields : List String
  selectedFields : Finset String
  result : Option ConversionResponse
  error : Option String
  customField : String
deriving DecidableEq

/-- The initial state: all `useState` initializers from `src/unnamed/part_001`
lines 6-12. -/
def initState : AppState :=
  { curlInput := ""
    status := .IDLE
    availableFields := []
    selectedFields := ∅
    result := none
    error := none
    customField := "" }

/-- Fallback message of the analyze catch block (`part_001` line 30). -/
def analyzeFallback : String := "Failed to analyze cURL. Please check the command."

/-- Fallback message of the generate catch block (`part_001` line 46). -/
def generateFallback : String := "Failed to generate code."

/-- The synchronous part of `handleAnalyze` (`part_001` lines 18-20), executed
after the blank-input guard: status becomes ANALYZING, error and result are
cleared.  The outbound call is then awaited. -/
def handleAnalyzeStart (s : AppState) : AppState :=
  { s with status := .ANALYZING, error := none, result := none }

/-- How `handleAnalyze` finishes once the awaited call settles
(`part_001` lines 22-32): on fulfilment the returned field list is stored, the
first three entries are pre-selected (`fields.slice(0, 3)`), and status becomes
AWAITING_SELECTION; on rejection the catch block stores
`err.message || analyzeFallback` and status becomes ERROR. -/
def handleAnalyzeSettle (s : AppState) (call : Except JsError (List String)) :
    AppState :=
  match call with
  | .ok fields =>
      { s with availableFields := fields
               selectedFields := (fields.take 3).toFinset
               status := .AWAITING_SELECTION }
  | .error err =>
      { s with error := some (jsMessageOr err analyzeFallback)
               status := .ERROR }

/-- `handleAnalyze` (`part_001` lines 15-33).  The guard
`if (!curlInput.trim()) return;` makes blank input an immediate no-op; the
parameter `call` is the settled outcome of `analyzeCurlSchema(curlInput)`. -/
def handleAnalyze (s : AppState) (call : Except JsError (List String)) :
    AppState :=
  if jsTrim s.curlInput = "" then s
  else handleAnalyzeSettle (handleAnalyzeStart s) call

/-- The synchronous part of `handleGenerate` (`part_001` lines 37-38): status
becomes GENERATING and error is cleared; there is no guard. -/
def handleGenerateStart (s : AppState) : AppState :=
  { s with status := .GENERATING, error := none }

/-- How `handleGenerate` finishes once the awaited call settles
(`part_001` lines 40-48): on fulfilment the result is stored and status becomes
SUCCESS; on rejection the catch block stores `err.message || generateFallback`
and status becomes ERROR. -/
def handleGenerateSettle (s : AppState)
    (call : Except JsError ConversionResponse) : AppState :=
  match call with
  | .ok data => { s with result := some data, status := .SUCCESS }
  | .error err =>
      { s with error := some (jsMessageOr err generateFallback)
               status := .ERROR }

/-- `handleGenerate` (`part_001` lines 36-49); `call` is the settled outcome of
`convertCurlToPython(curlInput, Array.from(selectedFields))`. -/
def handleGenerate (s : AppState) (call : Except JsError ConversionResponse) :
    AppState :=
  handleGenerateSettle (handleGenerateStart s) call

/-- `handleReset` (`part_001` lines 51-57): status back to IDLE; fields,
selection, result and error cleared; `curlInput` (and `customField`) are not
touched. -/
def handleReset (s : AppState) : AppState :=
  { s with status := .IDLE
           availableFields := []
           selectedFields := ∅
           result := none
           error := none }

/-- The set computation inside `toggleField` (`part_001` lines 59-67): copy the
selection, delete the field if present, otherwise add it. -/
def toggleField (selectedFields : Finset String) (field : String) :
    Finset String :=
  if field ∈ selectedFields then selectedFields.erase field
  else insert field selectedFields

/-- `toggleField` as a state action (the source mutates the `selectedFields`
state with the toggled copy). -/
def toggleFieldAction (s : AppState) (field : String) : AppState :=
  { s with selectedFields := toggleField s.selectedFields field }

/-- `addCustomField` (`part_001` lines 69-77): when the custom-field text is
non-blank, its trimmed value is appended to `availableFields`, toggled into the
selection, and the text box is cleared; otherwise nothing happens. -/
def addCustomField (s : AppState) : AppState :=
  if jsTrim s.customField = "" then s
  else
    { s with availableFields := s.availableFields ++ [jsTrim s.customField]
             selectedFields := toggleField s.selectedFields (jsTrim s.customField)
             customField := "" }

/-- The textarea `onChange` handler (`part_001` line 137). -/
def setCurlInput (s : AppState) (v : String) : AppState :=
  { s with curlInput := v }

/-- The custom-field input `onChange` handler (`part_001` line 196). -/
def setCustomField (s : AppState) (v : String) : AppState :=
  { s with customField := v }

/-- `handleExample` (`part_001` lines 79-83). -/
def handleExample (s : AppState) : AppState :=
  { s with
      curlInput :=
        "curl -X GET \"https://api.github.com/users/octocat\" -H \"accept: application/json\""
      status := .IDLE
      error := none }

/-! ## Service layer (`src/services/geminiService.ts`, `src/unnamed/part_002`) -/

/-- `Type` values used by the `responseSchema` literals. -/
inductive SchemaType where
  | OBJECT
  | ARRAY
  | STRING
deriving DecidableEq, Repr

/-- A JSON-schema node as the `responseSchema` object literals build it:
a `type` together with the optional `properties` (as an ordered association
list), `required` list, `items` (zero or one child), `enum` values and
`description`. -/
inductive Schema where
  | mk (type : SchemaType) (properties : List (String × Schema))
      (required : List String) (items : List Schema) (enumVals : List String)
      (description : Option String)

/-- The `type` of a schema node. -/
def Schema.typeOf : Schema → SchemaType
  | .mk t _ _ _ _ _ => t

/-- The `properties` of a schema node. -/
def Schema.properties : Schema → List (String × Schema)
  | .mk _ ps _ _ _ _ => ps

/-- The `required` list of a schema node. -/
def Schema.required : Schema → List String
  | .mk _ _ r _ _ _ => r

/-- The `items` of a schema node (empty or a singleton). -/
def Schema.items : Schema → List Schema
  | .mk _ _ _ is _ _ => is

/-- The `enum` values of a schema node. -/
def Schema.enumVals : Schema → List String
  | .mk _ _ _ _ es _ => es

/-- The `responseSchema` of the basic variant's analyze request
(`src/services/geminiService.ts` lines 29-39): an OBJECT whose single
property, named `fields`, is an ARRAY of STRING, and whose `required` list is
`["fields"]`. -/
def analyzeResponseSchema : Schema :=
  .mk .OBJECT
    [("fields",
      .mk .ARRAY [] [] [.mk .STRING [] [] [] [] none] []
        (some "List of predicted JSON fields available in the response."))]
    ["fields"] [] [] none

/-- The `responseSchema` of the extended variant's analyze request
(`src/unnamed/part_002` lines 39-61): an OBJECT requiring `responseFields`
(ARRAY of STRING) and `volatileInputs` (ARRAY of OBJECTs each requiring the
STRING fields `name`, `currentValue`, `description` and a STRING `type`
restricted by enum to header/query/body). -/
def analyzeResponseSchemaExt : Schema :=
  .mk .OBJECT
    [("responseFields",
      .mk .ARRAY [] [] [.mk .STRING [] [] [] [] none] [] none),
     ("volatileInputs",
      .mk .ARRAY [] []
        [.mk .OBJECT
          [("name", .mk .STRING [] [] [] [] none),
           ("currentValue", .mk .STRING [] [] [] [] none),
           ("type", .mk .STRING [] [] [] ["header", "query", "body"] none),
           ("description", .mk .STRING [] [] [] [] none)]
          ["name", "currentValue", "type", "description"] [] [] none]
        [] none)]
    ["responseFields", "volatileInputs"] [] [] none

/-- `fieldsDescription` from the basic variant's `convertCurlToPython`
(`geminiService.ts` lines 53-55): the comma-joined selection, or the
"all fields / no filtering" sentinel when the selection is empty. -/
def fieldsDescription (selectedFields : List String) : String :=
  if selectedFields.length > 0 then String.intercalate ", " selectedFields
  else "All fields (no filtering)"

/-- `fieldsDescription` from the extended variant's `convertCurlToPython`
(`src/unnamed/part_002` lines 75-77): same, with sentinel "All fields". -/
def fieldsDescriptionExt (selectedFields : List String) : String :=
  if selectedFields.length > 0 then String.intercalate ", " selectedFields
  else "All fields"

/-- Text of the basic generate prompt before the interpolated cURL command
(`geminiService.ts` lines 57-62). -/
def convertPromptPre : String :=
  "\n    Convert the following cURL command into a clean, professional Python script using the \x27requests\x27 library.\n    \n    cURL Command:\n    ```bash\n    "

/-- Text of the basic generate prompt between the cURL command and the
interpolated `fieldsDescription` (`geminiService.ts` lines 62-66). -/
def convertPromptMid : String :=
  "\n    ```\n    \n    The user explicitly wants to extract ONLY these specific fields from the JSON response: \n    [ "

/-- Text of the basic generate prompt after the interpolated
`fieldsDescription` (`geminiService.ts` lines 66-73). -/
def convertPromptPost : String :=
  " ]\n    \n    Requirements:\n    1. Include error handling for the network request.\n    2. Add specific logic to filter the JSON response. Create a new dictionary/object containing ONLY the selected fields.\n    3. If nested fields were selected (e.g., \x27user.profile.name\x27), ensure the Python logic traverses the dictionary safely (using .get() or try/except) to avoid KeyErrors if the field is missing.\n    4. Provide a sample \x27mock\x27 JSON response that demonstrates exactly what the *filtered* output will look like based on the user\x27s selection.\n  "

/-- The template literal `prompt` of the basic `convertCurlToPython`
(`geminiService.ts` lines 57-73), as a function of the two interpolated
values. -/
def convertPrompt (curlCommand : String) (fd : String) : String :=
  convertPromptPre ++ curlCommand ++ convertPromptMid ++ fd ++ convertPromptPost

/-- The basic `convertCurlToPython` (`geminiService.ts` lines 47-103),
relative to the external model call: it builds `fieldsDescription` from the
selected-field list (with no emptiness check or rejection), sends the prompt,
and returns whatever the call settles with.  `generateContent` stands for the
outbound `ai.models.generateContent` exchange including the response parse. -/
def convertCurlToPython (curlCommand : String) (selectedFields : List String)
    (generateContent : String → Except JsError ConversionResponse) :
    Except JsError ConversionResponse :=
  generateContent (convertPrompt curlCommand (fieldsDescription selectedFields))

/-! ## Model of `JSON.parse`

The success panel of both App variants renders
`JSON.stringify(JSON.parse(result.mockResponse), null, 2)` with no try/catch
(`part_001` line 318, `part_000` line 224), so a `mockResponse` that is not
JSON text throws during render.  `jsonParse` below is a recognizer for the
ECMA-404 grammar that `JSON.parse` accepts: `none` models the thrown
`SyntaxError`.  Numeric literals are kept as their lexeme (their numeric value
is never needed here), and `\uXXXX` escapes outside the valid `Char` range
decode through `Char.ofNat`'s default. -/

/-- A parsed JSON value. -/
inductive Json where
  | null
  | bool (b : Bool)
  | num (lexeme : String)
  | str (s : String)
  | arr (elems : List Json)
  | obj (members : List (String × Json))

/-- JSON's insignificant whitespace: space, tab, line feed, carriage return. -/
def isJsonWs (c : Char) : Bool :=
  c == ' ' || c == '\t' || c == '\n' || c == '\r'

/-- Drop leading JSON whitespace. -/
def skipWs : List Char → List Char
  | [] => []
  | c :: cs => if isJsonWs c then skipWs cs else c :: cs

/-- Value of a hexadecimal digit, if any. -/
def hexVal (c : Char) : Option Nat :=
  if '0' ≤ c ∧ c ≤ '9' then some (c.toNat - '0'.toNat)
  else if 'a' ≤ c ∧ c ≤ 'f' then some (c.toNat - 'a'.toNat + 10)
  else if 'A' ≤ c ∧ c ≤ 'F' then some (c.toNat - 'A'.toNat + 10)
  else none

/-- Parse the body of a JSON string after its opening quote: returns the
decoded characters and the input after the closing quote.  Escapes follow the
JSON grammar; unescaped control characters below U+0020 are rejected. -/
def parseJStringAux : Nat → List Char → Option (List Char × List Char)
  | 0, _ => none
  | _ + 1, [] => none
  | fuel + 1, c :: cs =>
    if c == '"' then some ([], cs)
    else if c == '\\' then
      match cs with
      | [] => none
      | e :: cs1 =>
        if e == 'u' then
          match cs1 with
          | h1 :: h2 :: h3 :: h4 :: cs2 =>
            match hexVal h1, hexVal h2, hexVal h3, hexVal h4 with
            | some a, some b, some c2, some d =>
              match parseJStringAux fuel cs2 with
              | some (content, rest) =>
                some (Char.ofNat (((a * 16 + b) * 16 + c2) * 16 + d) :: content,
                  rest)
              | none => none
            | _, _, _, _ => none
          | _ => none
        else
          match
            (if e == '"' then some '"'
             else if e == '\\' then some '\\'
             else if e == '/' then some '/'
             else if e == 'b' then some (Char.ofNat 8)
             else if e == 'f' then some (Char.ofNat 12)
             else if e == 'n' then some '\n'
             else if e == 'r' then some '\r'
             else if e == 't' then some '\t'
             else none) with
          | some ch =>
            match parseJStringAux fuel cs1 with
            | some (content, rest) => some (ch :: content, rest)
            | none => none
          | none => none
    else if c.toNat < 32 then none
    else
      match parseJStringAux fuel cs with
      | some (content, rest) => some (c :: content, rest)
      | none => none

/-- Parse a JSON string literal given the input after its opening quote. -/
def parseJString (cs : List Char) : Option (String × List Char) :=
  match parseJStringAux (cs.length + 1) cs with
  | some (content, rest) => some (String.mk content, rest)
  | none => none

/-- Parse the integer part of a JSON number: `0`, or a nonzero digit followed
by digits (no leading zeros). -/
def parseIntPart : List Char → Option (List Char × List Char)
  | [] => none
  | c :: cs =>
    if c == '0' then some ([c], cs)
    else if c.isDigit then
      some (c :: (cs.takeWhile Char.isDigit), cs.dropWhile Char.isDigit)
    else none

/-- Parse the optional fraction part of a JSON number. -/
def parseFracPart (cs : List Char) : Option (List Char × List Char) :=
  match cs with
  | '.' :: cs1 =>
    if (cs1.takeWhile Char.isDigit).isEmpty then none
    else some ('.' :: cs1.takeWhile Char.isDigit, cs1.dropWhile Char.isDigit)
  | _ => some ([], cs)

/-- Parse the optional exponent part of a JSON number. -/
def parseExpPart (cs : List Char) : Option (List Char × List Char) :=
  match cs with
  | [] => some ([], cs)
  | e :: cs1 =>
    if e == 'e' || e == 'E' then
      match cs1 with
      | [] => none
      | sgn :: cs2 =>
        if sgn == '+' || sgn == '-' then
          if (cs2.takeWhile Char.isDigit).isEmpty then none
          else some (e :: sgn :: cs2.takeWhile Char.isDigit,
            cs2.dropWhile Char.isDigit)
        else
          if (cs1.takeWhile Char.isDigit).isEmpty then none
          else some (e :: cs1.takeWhile Char.isDigit,
            cs1.dropWhile Char.isDigit)
    else some ([], cs)

/-- Parse a JSON number literal: `-? int frac? exp?`. -/
def parseNumber (cs : List Char) : Option (String × List Char) :=
  let (sign, cs1) :=
    match cs with
    | '-' :: rest => (['-'], rest)
    | _ => (([] : List Char), cs)
  match parseIntPart cs1 with
  | none => none
  | some (ip, cs2) =>
    match parseFracPart cs2 with
    | none => none
    | some (fp, cs3) =>
      match parseExpPart cs3 with
      | none => none
      | some (ep, cs4) => some (String.mk (sign ++ ip ++ fp ++ ep), cs4)

/-- Match an exact literal tail (`rue`, `alse`, `ull`). -/
def expectLit : List Char → List Char → Option (List Char)
  | [], rest => some rest
  | l :: ls, c :: rest => if c == l then expectLit ls rest else none
  | _ :: _, [] => none

mutual

/-- Parse a JSON value (after skipping leading whitespace).  `fuel` bounds the
recursion depth; every mutual call consumes at least one input character per
two fuel units, so `2 * length + 2` fuel at top level is always enough. -/
def parseValue (fuel : Nat) (input : List Char) :
    Option (Json × List Char) :=
  match fuel with
  | 0 => none
  | fuel + 1 =>
    match skipWs input with
    | [] => none
    | c :: rest =>
      if c == '"' then
        match parseJString rest with
        | some (s, rest1) => some (.str s, rest1)
        | none => none
      else if c == '[' then
        match skipWs rest with
        | ']' :: rest1 => some (.arr [], rest1)
        | rest1 =>
          match parseElements fuel rest1 with
          | some (vs, rest2) => some (.arr vs, rest2)
          | none => none
      else if c == '\x7b' then
        match skipWs rest with
        | '\x7d' :: rest1 => some (.obj [], rest1)
        | rest1 =>
          match parseMembers fuel rest1 with
          | some (ms, rest2) => some (.obj ms, rest2)
          | none => none
      else if c == 't' then
        match expectLit ['r', 'u', 'e'] rest with
        | some rest1 => some (.bool true, rest1)
        | none => none
      else if c == 'f' then
        match expectLit ['a', 'l', 's', 'e'] rest with
        | some rest1 => some (.bool false, rest1)
        | none => none
      else if c == 'n' then
        match expectLit ['u', 'l', 'l'] rest with
        | some rest1 => some (.null, rest1)
        | none => none
      else
        match parseNumber (c :: rest) with
        | some (lexeme, rest1) => some (.num lexeme, rest1)
        | none => none

/-- Parse the comma-separated elements of a non-empty array, up to and
including the closing bracket. -/
def parseElements (fuel : Nat) (input : List Char) :
    Option (List Json × List Char) :=
  match fuel with
  | 0 => none
  | fuel + 1 =>
    match parseValue fuel input with
    | none => none
    | some (v, rest) =>
      match skipWs rest with
      | ',' :: rest1 =>
        match parseElements fuel rest1 with
        | some (vs, rest2) => some (v :: vs, rest2)
        | none => none
      | ']' :: rest1 => some ([v], rest1)
      | _ => none

/-- Parse the comma-separated members of a non-empty object, up to and
including the closing brace. -/
def parseMembers (fuel : Nat) (input : List Char) :
    Option (List (String × Json) × List Char) :=
  match fuel with
  | 0 => none
  | fuel + 1 =>
    match skipWs input with
    | '"' :: rest =>
      match parseJString rest with
      | none => none
      | some (key, rest1) =>
        match skipWs rest1 with
        | ':' :: rest2 =>
          match parseValue fuel rest2 with
          | none => none
          | some (v, rest3) =>
            match skipWs rest3 with
            | ',' :: rest4 =>
              match parseMembers fuel rest4 with
              | some (ms, rest5) => some ((key, v) :: ms, rest5)
              | none => none
            | '\x7d' :: rest4 => some ([(key, v)], rest4)
            | _ => none
        | _ => none
    | _ => none

end

/-- `JSON.parse(s)`: parse one value and require only whitespace to remain;
`none` models the thrown `SyntaxError`. -/
def jsonParse (s : String) : Option Json :=
  match parseValue (2 * s.length + 2) s.data with
  | some (v, rest) =>
    match skipWs rest with
    | [] => some v
    | _ => none
  | none => none

/-- What the success panel does to the mock response
(`part_001` line 318): an unguarded `JSON.parse(result.mockResponse)`;
`none` means the render throws, outside every catch block of the
controller. -/
def renderMockResponse (result : ConversionResponse) : Option Json :=
  jsonParse result.mockResponse

/-! ## Reachable controller states

`Reach s M` holds when the basic-variant controller can be in state `s` with
`M` the set of (trimmed) names the user has submitted through the custom-field
form.  Each constructor is one way the source mutates the state: the initial
render, typing in either text box, the analyze and generate handlers settling
either way, a click on a rendered field chip (only chips for members of
`availableFields` are rendered, `part_001` lines 173-185), the custom-field
form submit, the Start Over button, and the example button. -/
inductive Reach : AppState → Finset String → Prop where
  | init : Reach initState ∅
  | input (s : AppState) (M : Finset String) (v : String) :
      Reach s M → Reach (setCurlInput s v) M
  | custom (s : AppState) (M : Finset String) (v : String) :
      Reach s M → Reach (setCustomField s v) M
  | analyze (s : AppState) (M : Finset String)
      (call : Except JsError (List String)) :
      Reach s M → Reach (handleAnalyze s call) M
  | generate (s : AppState) (M : Finset String)
      (call : Except JsError ConversionResponse) :
      Reach s M → Reach (handleGenerate s call) M
  | toggle (s : AppState) (M : Finset String) (f : String)
      (hf : f ∈ s.availableFields) :
      Reach s M → Reach (toggleFieldAction s f) M
  | addCustom (s : AppState) (M : Finset String) : Reach s M →
      Reach (addCustomField s)
        (if jsTrim s.customField = "" then M else insert (jsTrim s.customField) M)
  | reset (s : AppState) (M : Finset String) : Reach s M → Reach (handleReset s) M
  | exampleClick (s : AppState) (M : Finset String) :
      Reach s M → Reach (handleExample s) M

/-! ## Theorems -/

/-- The stored error string is never empty when the fallback is not. -/
theorem jsMessageOr_ne_empty (e : JsError) (fb : String) (hfb : fb ≠ "") :
    jsMessageOr e fb ≠ "" := by
  obtain ⟨msg⟩ := e
  cases msg with
  | none => simpa [jsMessageOr] using hfb
  | some m =>
    by_cases hm : m = ""
    · simpa [jsMessageOr, hm] using hfb
    · simp [jsMessageOr, hm]

/-- A member of a toggled selection was already selected or is the toggled
field. -/
theorem mem_toggleField {S : Finset String} {f x : String}
    (hx : x ∈ toggleField S f) : x ∈ S ∨ x = f := by
  by_cases h : f ∈ S
  · simp only [toggleField, if_pos h, Finset.mem_erase] at hx
    exact Or.inl hx.2
  · simp only [toggleField, if_neg h, Finset.mem_insert] at hx
    rcases hx with h1 | h1
    · exact Or.inr h1
    · exact Or.inl h1

/-- Claim C3: for blank or whitespace-only input text, invoking analyze is a
no-op: the whole controller state is unchanged, and the result does not depend
on the outbound call's outcome because the guard returns before the call is
issued. -/
theorem analyze_blank_noop (s : AppState) (call : Except JsError (List String))
    (h : jsTrim s.curlInput = "") : handleAnalyze s call = s := by
  simp [handleAnalyze, h]

/-- Witness for `analyze_blank_noop` at a whitespace-only input. -/
theorem analyze_blank_noop_witness :
    jsTrim "  \t " = "" ∧
      handleAnalyze { initState with curlInput := "  \t " } (.ok ["id"]) =
        { initState with curlInput := "  \t " } :=
  ⟨by decide, analyze_blank_noop { initState with curlInput := "  \t " }
    (.ok ["id"]) (by decide)⟩

/-- Claim C4: toggling a selected field removes it, toggling an unselected
field adds it, and toggling twice restores the original selection (an
involution on membership, here even on the `Finset` itself). -/
theorem toggleField_membership_spec (S : Finset String) (f : String) :
    (f ∈ S → toggleField S f = S.erase f) ∧
    (f ∉ S → toggleField S f = insert f S) ∧
    toggleField (toggleField S f) f = S := by
  refine ⟨fun h => by simp [toggleField, h], fun h => by simp [toggleField, h], ?_⟩
  by_cases h : f ∈ S
  · rw [show toggleField S f = S.erase f by simp [toggleField, h]]
    rw [show toggleField (S.erase f) f = insert f (S.erase f) by
      simp [toggleField]]
    exact Finset.insert_erase h
  · rw [show toggleField S f = insert f S by simp [toggleField, h]]
    rw [show toggleField (insert f S) f = (insert f S).erase f by
      simp [toggleField]]
    exact Finset.erase_insert h

/-- Witness for `toggleField_membership_spec` on concrete selections. -/
theorem toggleField_membership_spec_witness :
    toggleField (toggleField ({"id"} : Finset String) "user.name") "user.name" =
      ({"id"} : Finset String) ∧
    toggleField ({"id"} : Finset String) "id" =
      ({"id"} : Finset String).erase "id" ∧
    toggleField ({"id"} : Finset String) "user.name" =
      insert "user.name" ({"id"} : Finset String) :=
  ⟨(toggleField_membership_spec {"id"} "user.name").2.2,
   (toggleField_membership_spec {"id"} "id").1 (by decide),
   (toggleField_membership_spec {"id"} "user.name").2.1 (by decide)⟩

/-- Claim C5: reset leaves the cURL input text unchanged while clearing the
available fields, the selection, the result and the error, and returning the
status to IDLE. -/
theorem reset_spec (s : AppState) :
    (handleReset s).curlInput = s.curlInput ∧
    (handleReset s).availableFields = [] ∧
    (handleReset s).selectedFields = ∅ ∧
    (handleReset s).result = none ∧
    (handleReset s).error = none ∧
    (handleReset s).status = .IDLE :=
  ⟨rfl, rfl, rfl, rfl, rfl, rfl⟩

/-- Claim C1 (counterexample): the claim as stated is false. When the analyze
call fulfils with an empty field list — which nothing in the code prevents, and
which the UI explicitly renders ("No fields automatically detected.") — the
status still becomes AWAITING_SELECTION while `responseFields` is empty, so
neither of the claim's two allowed outcomes (AWAITING_SELECTION with non-empty
fields, or ERROR) holds. -/
theorem analyze_empty_fields_counterexample :
    (handleAnalyze { initState with curlInput := "curl https://api.example.com/data" }
      (.ok [])).status = .AWAITING_SELECTION ∧
    (handleAnalyze { initState with curlInput := "curl https://api.example.com/data" }
      (.ok [])).availableFields = [] ∧
    (handleAnalyze { initState with curlInput := "curl https://api.example.com/data" }
      (.ok [])).selectedFields = ∅ := by
  refine ⟨by decide, by decide, by decide⟩

/-- Claim C1 (amended): for every non-blank cURL input, invoking analyze sets
status to ANALYZING immediately (clearing error and result), and after the
call settles the status is exactly one of AWAITING_SELECTION — with
`responseFields` set to the returned list, possibly empty, and the first up to
three of its names pre-selected — or ERROR with a non-empty message stored. -/
theorem analyze_settles_spec (s : AppState) (hne : jsTrim s.curlInput ≠ "") :
    (handleAnalyzeStart s).status = .ANALYZING ∧
    (handleAnalyzeStart s).error = none ∧
    (handleAnalyzeStart s).result = none ∧
    (∀ fields, handleAnalyze s (.ok fields) =
      { s with status := .AWAITING_SELECTION
               error := none
               result := none
               availableFields := fields
               selectedFields := (fields.take 3).toFinset }) ∧
    (∀ e, (handleAnalyze s (.error e)).status = .ERROR ∧
      (handleAnalyze s (.error e)).error = some (jsMessageOr e analyzeFallback) ∧
      jsMessageOr e analyzeFallback ≠ "") := by
  refine ⟨rfl, rfl, rfl, fun fields => ?_, fun e => ?_⟩
  · simp [handleAnalyze, hne, handleAnalyzeStart, handleAnalyzeSettle]
  · refine ⟨?_, ?_, jsMessageOr_ne_empty e analyzeFallback (by decide)⟩ <;>
      simp [handleAnalyze, hne, handleAnalyzeStart, handleAnalyzeSettle]

/-- Witness for `analyze_settles_spec` at a concrete non-blank input. -/
theorem analyze_settles_spec_witness :
    (handleAnalyzeStart { initState with curlInput := "curl -s https://x" }).status =
      .ANALYZING :=
  (analyze_settles_spec { initState with curlInput := "curl -s https://x" }
    (by decide)).1

/-- Claim C2 (counterexample): the claim as stated is false. The generate call
returns `JSON.parse(response.text)` with no emptiness validation, so a
fulfilment whose three string fields are all empty still drives the status to
SUCCESS with that value stored as the result, contradicting "three string
fields all non-empty". -/
theorem generate_empty_strings_counterexample :
    (handleGenerate initState (.ok ⟨"", "", ""⟩)).status = .SUCCESS ∧
    (handleGenerate initState (.ok ⟨"", "", ""⟩)).result = some ⟨"", "", ""⟩ :=
  ⟨rfl, rfl⟩

/-- Claim C2 (amended): every invocation of generate sets status to GENERATING
immediately (clearing error), and after the call settles the status is exactly
one of SUCCESS — with the result holding the returned `ConversionResponse`,
whose three string fields may be empty — or ERROR. -/
theorem generate_settles_spec (s : AppState) :
    (handleGenerateStart s).status = .GENERATING ∧
    (handleGenerateStart s).error = none ∧
    (∀ r, handleGenerate s (.ok r) =
      { s with error := none, result := some r, status := .SUCCESS }) ∧
    (∀ e, (handleGenerate s (.error e)).status = .ERROR ∧
      (handleGenerate s (.error e)).error = some (jsMessageOr e generateFallback)) :=
  ⟨rfl, rfl, fun _ => rfl, fun _ => ⟨rfl, rfl⟩⟩

/-- Claim C6: a rejection of either call is caught; the stored error value is
the thrown error's message when that is a (truthy) non-empty string and a fixed
fallback string otherwise, status becomes ERROR, and a generate failure leaves
the previously discovered fields and the selection untouched. -/
theorem failure_handling_spec (s : AppState) (e : JsError)
    (hne : jsTrim s.curlInput ≠ "") :
    ((handleAnalyze s (.error e)).status = .ERROR ∧
     (handleAnalyze s (.error e)).error = some (jsMessageOr e analyzeFallback)) ∧
    ((handleGenerate s (.error e)).status = .ERROR ∧
     (handleGenerate s (.error e)).error = some (jsMessageOr e generateFallback)) ∧
    (∀ m, e.message = some m → m ≠ "" →
      (handleAnalyze s (.error e)).error = some m ∧
      (handleGenerate s (.error e)).error = some m) ∧
    (e.message = none →
      (handleAnalyze s (.error e)).error = some analyzeFallback ∧
      (handleGenerate s (.error e)).error = some generateFallback) ∧
    ((handleGenerate s (.error e)).availableFields = s.availableFields ∧
     (handleGenerate s (.error e)).selectedFields = s.selectedFields) := by
  have ha : (handleAnalyze s (.error e)).status = .ERROR ∧
      (handleAnalyze s (.error e)).error = some (jsMessageOr e analyzeFallback) := by
    constructor <;> simp [handleAnalyze, hne, handleAnalyzeStart, handleAnalyzeSettle]
  refine ⟨ha, ⟨rfl, rfl⟩, fun m hm hme => ?_, fun hm => ?_, rfl, rfl⟩
  · have hmsg : jsMessageOr e analyzeFallback = m := by
      simp [jsMessageOr, hm, hme]
    have hmsg2 : jsMessageOr e generateFallback = m := by
      simp [jsMessageOr, hm, hme]
    exact ⟨by rw [ha.2, hmsg], by rw [show (handleGenerate s (.error e)).error =
      some (jsMessageOr e generateFallback) from rfl, hmsg2]⟩
  · have hmsg : jsMessageOr e analyzeFallback = analyzeFallback := by
      simp [jsMessageOr, hm]
    have hmsg2 : jsMessageOr e generateFallback = generateFallback := by
      simp [jsMessageOr, hm]
    exact ⟨by rw [ha.2, hmsg], by rw [show (handleGenerate s (.error e)).error =
      some (jsMessageOr e generateFallback) from rfl, hmsg2]⟩

/-- Witness for `failure_handling_spec` at a concrete state and error. -/
theorem failure_handling_spec_witness :
    (handleAnalyze { initState with curlInput := "curl https://x" }
      (.error ⟨some "boom"⟩)).status = .ERROR :=
  (failure_handling_spec { initState with curlInput := "curl https://x" }
    ⟨some "boom"⟩ (by decide)).1.1

/-- Claim C7 (counterexample): the claim as stated is false for the basic
variant: its analyze `responseSchema` names its single required array-of-string
property `fields`, not `responseFields`. -/
theorem analyze_schema_name_counterexample :
    analyzeResponseSchema.required = ["fields"] ∧
    analyzeResponseSchema.properties.map Prod.fst = ["fields"] ∧
    "responseFields" ∉ analyzeResponseSchema.properties.map Prod.fst :=
  ⟨rfl, rfl, by decide⟩

/-- Claim C7 (amended): each analyze request declares a JSON-schema response
contract that is an object with one required array-of-string field — named
`fields` in the basic variant and `responseFields` in the extended variant —
and the extended variant additionally requires `volatileInputs` as an array of
objects each with string `name`, string `currentValue`, `type` constrained by
enum to header/query/body, and string `description`. -/
theorem analyze_schema_contract_spec :
    analyzeResponseSchema.typeOf = .OBJECT ∧
    analyzeResponseSchema.required = ["fields"] ∧
    (∃ fs, analyzeResponseSchema.properties = [("fields", fs)] ∧
      fs.typeOf = .ARRAY ∧ fs.items.map Schema.typeOf = [.STRING]) ∧
    analyzeResponseSchemaExt.typeOf = .OBJECT ∧
    analyzeResponseSchemaExt.required = ["responseFields", "volatileInputs"] ∧
    (∃ rf vi, analyzeResponseSchemaExt.properties =
        [("responseFields", rf), ("volatileInputs", vi)] ∧
      rf.typeOf = .ARRAY ∧ rf.items.map Schema.typeOf = [.STRING] ∧
      vi.typeOf = .ARRAY ∧
      ∃ item, vi.items = [item] ∧ item.typeOf = .OBJECT ∧
        item.required = ["name", "currentValue", "type", "description"] ∧
        item.properties.map Prod.fst =
          ["name", "currentValue", "type", "description"] ∧
        item.properties.map (fun p => p.2.typeOf) =
          [.STRING, .STRING, .STRING, .STRING] ∧
        item.properties.map (fun p => p.2.enumVals) =
          [[], [], ["header", "query", "body"], []]) :=
  ⟨rfl, rfl, ⟨_, rfl, rfl, rfl⟩, rfl, rfl,
   ⟨_, _, rfl, rfl, rfl, rfl, ⟨_, rfl, rfl, rfl, rfl, rfl, rfl⟩⟩⟩

/-- Claim C8: a generate invocation with an empty selected-field list is not
rejected — the outbound call is still made, with the "all fields / no
filtering" sentinel interpolated into the prompt where the field list would
be (basic variant: "All fields (no filtering)"; extended variant:
"All fields") — and it succeeds whenever the model call fulfils. -/
theorem generate_empty_selection_spec (curl : String)
    (generateContent : String → Except JsError ConversionResponse) :
    fieldsDescription [] = "All fields (no filtering)" ∧
    fieldsDescriptionExt [] = "All fields" ∧
    convertCurlToPython curl [] generateContent =
      generateContent (convertPrompt curl "All fields (no filtering)") ∧
    (∃ a b, convertPrompt curl "All fields (no filtering)" =
      a ++ "All fields (no filtering)" ++ b) ∧
    (∀ r, generateContent (convertPrompt curl "All fields (no filtering)") = .ok r →
      convertCurlToPython curl [] generateContent = .ok r) :=
  ⟨rfl, rfl, rfl,
   ⟨convertPromptPre ++ curl ++ convertPromptMid, convertPromptPost, rfl⟩,
   fun _ h => h⟩

/-- Witness for `generate_empty_selection_spec` with a concrete model call. -/
theorem generate_empty_selection_spec_witness :
    convertCurlToPython "curl -s https://x" []
      (fun _ => .ok ⟨"code", "expl", "mock"⟩) =
      .ok ⟨"code", "expl", "mock"⟩ :=
  (generate_empty_selection_spec "curl -s https://x"
    (fun _ => .ok ⟨"code", "expl", "mock"⟩)).2.2.2.2
    ⟨"code", "expl", "mock"⟩ rfl

/-- In every reachable state the selection is a subset of the available
fields; the UI only offers toggle chips for available fields, and the
custom-field form inserts the new name into `availableFields` before toggling
it into the selection. -/
theorem reach_selected_subset (s : AppState) (M : Finset String)
    (h : Reach s M) : ∀ x ∈ s.selectedFields, x ∈ s.availableFields := by
  induction h with
  | init => intro x hx; simp [initState] at hx
  | input s M v _ ih => exact ih
  | custom s M v _ ih => exact ih
  | analyze s M call _ ih =>
    by_cases hb : jsTrim s.curlInput = ""
    · simpa [handleAnalyze, hb] using ih
    · cases call with
      | ok fields =>
        intro x hx
        simp only [handleAnalyze, if_neg hb, handleAnalyzeStart,
          handleAnalyzeSettle, List.mem_toFinset] at hx ⊢
        exact List.take_subset 3 fields hx
      | error e =>
        intro x hx
        simp only [handleAnalyze, if_neg hb, handleAnalyzeStart,
          handleAnalyzeSettle] at hx ⊢
        exact ih x hx
  | generate s M call _ ih =>
    cases call with
    | ok r => exact ih
    | error e => exact ih
  | toggle s M f hf _ ih =>
    intro x hx
    simp only [toggleFieldAction] at hx ⊢
    rcases mem_toggleField hx with h1 | h1
    · exact ih x h1
    · rw [h1]; exact hf
  | addCustom s M _ ih =>
    by_cases hb : jsTrim s.customField = ""
    · simpa [addCustomField, hb] using ih
    · intro x hx
      simp only [addCustomField, if_neg hb] at hx ⊢
      rcases mem_toggleField hx with h1 | h1
      · exact List.mem_append_left _ (ih x h1)
      · exact List.mem_append_right _ (by simp [h1])
  | reset s M _ ih => intro x hx; simp [handleReset] at hx
  | exampleClick s M _ ih => exact ih

/-- Claim C9: in every reachable controller state, the selection set is a
subset of the union of the currently known available field names and the names
manually added via the custom-field action; every operation preserves this. -/
theorem selection_subset_spec (s : AppState) (M : Finset String)
    (h : Reach s M) :
    s.selectedFields ⊆ s.availableFields.toFinset ∪ M := by
  intro x hx
  exact Finset.mem_union_left M
    (List.mem_toFinset.mpr (reach_selected_subset s M h x hx))

/-- Witness for `selection_subset_spec` at the initial state. -/
theorem selection_subset_spec_witness :
    initState.selectedFields ⊆
      initState.availableFields.toFinset ∪ (∅ : Finset String) :=
  selection_subset_spec initState ∅ Reach.init

/-- Claim C10: reaching SUCCESS does not guarantee that the result's
`mockResponse` parses as JSON: the generate handler accepts any fulfilled
`ConversionResponse` and stores it with status SUCCESS, yet the success render
feeds `mockResponse` to an unguarded `JSON.parse`, which throws (`none` here)
outside every catch block of the controller. -/
theorem success_mock_parse_unguarded :
    ∃ (r : ConversionResponse) (s : AppState),
      (handleGenerate s (.ok r)).status = .SUCCESS ∧
      (handleGenerate s (.ok r)).result = some r ∧
      renderMockResponse r = none := by
  refine ⟨⟨"import requests", "Fetches the data.", "not a json payload"⟩,
    initState, rfl, rfl, ?_⟩
  rfl

end Curl2Py
